import Mathlib

/-!
Shallow embedding of the alert-coordination logic of
`src/ai-defense/defense_coordinator.py` (class `DefenseCoordinator`).

Modelling conventions:
- Python `datetime` values are modelled as integer seconds (`ℤ`);
  `timedelta(hours=1)` is `3600`, `timedelta(hours=24)` is `86400`,
  `timedelta(minutes=5)` is `300`.
- Python floats (`confidence`, `alert_threshold`) are modelled as `ℚ`;
  every literal the code compares against (0.7, 0.9, 0.95) is exactly
  representable, so the order relations coincide.
- Alerts are Python dicts; the fields the coordinator accesses through
  `.get` with a default (`id`, `type`, `confidence`) are `Option`s with
  the corresponding default applied at each access site, exactly as the
  source does.  The field `timestamp` is accessed by plain indexing
  (`a["timestamp"]`) and is therefore total.  The fields `status` and
  `responses` appear in the spec's Alert data model; no line of the
  source ever writes them, so in the embedding they carry their initial
  values (`none`, `[]`) throughout.
-/

/-- An outcome record built by `_execute_response_action` (lines 217-222):
`{action, alert_id, timestamp, status}`. -/
structure ResponseRecord where
  action : String
  alertId : String
  timestamp : ℤ
  rstatus : String
deriving DecidableEq

/-- An alert dict as the coordinator sees it.  `atype` embeds the `"type"`
key, `timestamp` the `"timestamp"` key (ISO datetime, modelled as seconds),
`system` / `coordinatedAt` are stamped at collection time
(`_process_alerts` lines 124-125).  `status` and `responses` are the
spec's response-tracking fields; the source never assigns either key. -/
structure AlertRec where
  id : Option String := none
  atype : Option String := none
  confidence : Option ℚ := none
  timestamp : ℤ
  system : Option String := none
  coordinatedAt : Option ℤ := none
  status : Option String := none
  responses : List ResponseRecord := []
deriving DecidableEq

/-- The typed view of `coordination_config` (lines 27-32) used by the
cycle logic: `monitoring_interval = 30`, `alert_threshold = 0.7`,
`auto_response = True`, `max_alerts_per_hour = 10`. -/
structure Config where
  monitoringInterval : ℤ := 30
  alertThreshold : ℚ := mkRat 7 10
  autoResponse : Bool := true
  maxAlertsPerHour : ℕ := 10
deriving DecidableEq

def defaultConfig : Config := {}

/-- The last-hour slice of the store (line 154):
`[a for a in self.alerts if fromisoformat(a["timestamp"]) > utcnow() - timedelta(hours=1)]`. -/
def recentAlerts (now : ℤ) (store : List AlertRec) : List AlertRec :=
  store.filter (fun a => decide (a.timestamp > now - 3600))

/-- Python `l[-10:]`: the last `n` elements of a list. -/
def lastN (n : ℕ) (l : List α) : List α :=
  l.drop (l.length - n)

/-- The duplicate test of lines 163-168: some alert in the window has the
same `"type"` (Python `==` on possibly-missing values) and a signed
timestamp difference, candidate minus existing, below 5 minutes. -/
def isDupB (window : List AlertRec) (c : AlertRec) : Bool :=
  window.any (fun e =>
    decide (c.atype = e.atype) && decide (c.timestamp - e.timestamp < 300))

/-- Embedding of `_filter_alerts` (lines 151-173): hard rate-limit cutoff
against the store's trailing-hour slice, then per-candidate dedup against
the last 10 of that same slice.  The dedup window is fixed before the
loop, so candidates are never compared against each other. -/
def filterAlerts (cfg : Config) (now : ℤ) (store : List AlertRec)
    (candidates : List AlertRec) : List AlertRec :=
  let recent := recentAlerts now store
  if recent.length ≥ cfg.maxAlertsPerHour then []
  else candidates.filter (fun c => ! isDupB (lastN 10 recent) c)

/-- Whether `needle` is an initial segment of `hay` (on characters). -/
def leadMatch : List Char → List Char → Bool
  | [], _ => true
  | _ :: _, [] => false
  | a :: as, b :: bs => a == b && leadMatch as bs

/-- Whether `needle` occurs contiguously inside `hay`: Python's
`needle in hay` on strings. -/
def subMatch (needle : List Char) : List Char → Bool
  | [] => leadMatch needle []
  | b :: bs => leadMatch needle (b :: bs) || subMatch needle bs

/-- Python `s.lower()`, character by character (agrees with Python on the
ASCII alert-kind strings the coordinator deals with). -/
def lowerChars (s : String) : List Char :=
  s.toList.map Char.toLower

/-- Python `needle in hay` where `hay` is an already-lowercased string. -/
def strContains (needle : String) (hay : List Char) : Bool :=
  subMatch needle.toList hay

/-- Embedding of `_determine_response_actions` (lines 189-209).  Note the
`elif` chain: within the high-confidence branch the three substring rows
are checked first-match, in the order anomaly, threat, performance. -/
def determineResponseActions (a : AlertRec) : List String :=
  let alertType := lowerChars (a.atype.getD "")
  let confidence := a.confidence.getD 0
  if confidence > mkRat 9 10 then
    if strContains "anomaly" alertType then
      ["isolate_resource", "increase_monitoring"]
    else if strContains "threat" alertType then
      ["block_access", "log_incident"]
    else if strContains "performance" alertType then
      ["scale_resources", "trigger_upgrade"]
    else []
  else if confidence > mkRat 7 10 then
    ["increase_monitoring"]
  else []

/-- Embedding of `_execute_response_action` (lines 211-230): the function
constructs this record (`status = "executed"`), logs, and returns `None`.
The record is bound to a local and never stored anywhere: the function
mutates neither the alert nor any coordinator state. -/
def executeResponseAction (now : ℤ) (action : String) (a : AlertRec) :
    ResponseRecord :=
  { action := action
    alertId := a.id.getD "unknown"
    timestamp := now
    rstatus := "executed" }

/-- Embedding of `_coordinate_responses` (lines 175-187): for each alert,
plan the actions and execute each.  The records produced by execution are
returned here to make them observable; in the source they are discarded,
and no state is touched. -/
def coordinateResponses (now : ℤ) (alerts : List AlertRec) :
    List ResponseRecord :=
  alerts.flatMap (fun a =>
    (determineResponseActions a).map (fun act => executeResponseAction now act a))

/-- Retention pruning (lines 137-138):
`self.alerts = [a for a in self.alerts if fromisoformat(a["timestamp"]) > cutoff]`
with `cutoff = utcnow() - timedelta(hours=24)`.  The key pruned on is the
finding's `"timestamp"`, not `"coordinated_at"`. -/
def pruneAlerts (now : ℤ) (store : List AlertRec) : List AlertRec :=
  store.filter (fun a => decide (a.timestamp > now - 86400))

/-- Per-system entry of the `results` dict built by `_run_monitoring_cycle`
(lines 79-91): the monitoring method's payload, the caught exception's
message, or the `no_monitoring_method` marker. -/
inductive SysResult where
  | ok (payload : String)
  | err (msg : String)
  | noMethod
deriving DecidableEq

/-- A defense system as the coordinator interacts with it.  `scan` is the
outcome of its monitoring method (`none` when it has none; `Except.error`
when the call raises), `getAlerts` likewise for its `get_alerts` method. -/
structure DefSystem where
  name : String
  scan : Option (Except String String) := none
  getAlerts : Option (Except String (List AlertRec)) := none

/-- How one system's scan outcome lands in the cycle's `results` dict
(lines 81-91): payload on success, `{"error": str(e)}` on an exception,
`{"status": "no_monitoring_method"}` when no method exists. -/
def toSysResult : Option (Except String String) → SysResult
  | none => .noMethod
  | some (.ok p) => .ok p
  | some (.error e) => .err e

/-- The `results` dict of one monitoring cycle: every system is visited,
each inside its own try/except (lines 79-91). -/
def runMonitoringResults (systems : List DefSystem) :
    List (String × SysResult) :=
  systems.map (fun s => (s.name, toSysResult s.scan))

/-- One cycle record (lines 94-99): `timestamp`, `duration`, `results`,
`alerts_generated` (initially 0, overwritten at the end of
`_process_alerts`, line 146). -/
structure CycleRecord where
  timestamp : ℤ := 0
  duration : ℤ := 0
  results : List (String × SysResult) := []
  alertsGenerated : ℕ := 0
deriving DecidableEq

/-- History append with the cap of lines 101-105: append, then
`if len > 100: history = history[-100:]`. -/
def appendHistory (hist : List CycleRecord) (c : CycleRecord) :
    List CycleRecord :=
  let h := hist ++ [c]
  if h.length > 100 then lastN 100 h else h

/-- Line 146: `self.defense_history[-1]["alerts_generated"] = n` (guarded
by the history being non-empty). -/
def setLastGenerated (hist : List CycleRecord) (n : ℕ) : List CycleRecord :=
  match hist.getLast? with
  | none => hist
  | some c => hist.dropLast ++ [{ c with alertsGenerated := n }]

/-- The candidate-collection loop of `_process_alerts` (lines 116-128):
each system's `get_alerts` runs in its own try/except; alerts above the
configured threshold are stamped with `system` and `coordinated_at` and
appended in system order then alert order. -/
def collectNewAlerts (cfg : Config) (now : ℤ)
    (systems : List (String × Option (Except String (List AlertRec)))) :
    List AlertRec :=
  systems.flatMap (fun p =>
    match p.2 with
    | none => []
    | some (.error _) => []
    | some (.ok as) =>
        (as.filter (fun a => decide (a.confidence.getD 0 > cfg.alertThreshold))).map
          (fun a => { a with system := some p.1, coordinatedAt := some now }))

/-- The mutable coordinator state the claims range over: the Alert Store
(`self.alerts`), the cycle history (`self.defense_history`) and the typed
configuration. -/
structure CoordState where
  alerts : List AlertRec := []
  history : List CycleRecord := []
  config : Config := {}
deriving DecidableEq

/-- What one full cycle produces: the new state, the batch admitted by the
filter, and the response records built (and, in the source, discarded) by
the executor. -/
structure CycleOut where
  state : CoordState
  admitted : List AlertRec
  executed : List ResponseRecord

/-- The name and `get_alerts` outcome of a system, as consumed by the
candidate-collection loop. -/
def sysAlertsView (s : DefSystem) :
    String × Option (Except String (List AlertRec)) :=
  (s.name, s.getAlerts)

/-- One complete cycle: `_run_monitoring_cycle` (scan every system, record
the cycle, cap the history) followed by `_process_alerts` (collect
candidates, filter, extend the store, prune by the 24h window, coordinate
responses when `auto_response` is on and something was admitted, then
patch `alerts_generated` into the last record). -/
def runCycle (now : ℤ) (systems : List DefSystem) (st : CoordState) :
    CycleOut :=
  let rec0 : CycleRecord :=
    { timestamp := now, duration := 0
      results := runMonitoringResults systems, alertsGenerated := 0 }
  let hist1 := appendHistory st.history rec0
  let newAlerts := collectNewAlerts st.config now
    (systems.map sysAlertsView)
  let filtered := filterAlerts st.config now st.alerts newAlerts
  let alerts1 := pruneAlerts now (st.alerts ++ filtered)
  let executed :=
    if st.config.autoResponse && ! filtered.isEmpty then
      coordinateResponses now filtered
    else []
  { state := { alerts := alerts1, history := setLastGenerated hist1 filtered.length
               config := st.config }
    admitted := filtered
    executed := executed }

/-- Result dict of `manual_response` (lines 287-312): either
`{"error": "Alert not found", "executed": False}` or
`{"executed": True, alert_id, action, timestamp}`. -/
inductive ManualResult where
  | notFound
  | executed (alertId action : String) (timestamp : ℤ)
deriving DecidableEq

/-- Embedding of `manual_response`: linear search for the first alert whose
`"id"` equals `alert_id`; `NotFound` when absent; otherwise the executor
runs once (building, then dropping, one record).  Neither branch changes
any coordinator state. -/
def manualResponse (now : ℤ) (st : CoordState) (alertId action : String) :
    CoordState × ManualResult :=
  match st.alerts.find? (fun a => a.id == some alertId) with
  | none => (st, .notFound)
  | some a =>
      let _ := executeResponseAction now action a
      (st, .executed alertId action now)

/-- A JSON-ish value as stored in `coordination_config` or sent in a
configuration patch (`update_configuration` takes `Dict[str, Any]`). -/
inductive CVal where
  | vi (n : ℤ)
  | vq (q : ℚ)
  | vb (b : Bool)
  | vs (s : String)
deriving DecidableEq

/-- Dictionary lookup on an association list (keys are unique in the
configuration dict). -/
def dictLookup : List (String × CVal) → String → Option CVal
  | [], _ => none
  | (k, v) :: rest, key => if k = key then some v else dictLookup rest key

/-- Python `d[key] = value` on a dict that already holds `key`: replace the
value in place. -/
def setKey : List (String × CVal) → String → CVal → List (String × CVal)
  | [], _, _ => []
  | (k, v) :: rest, key, val =>
      if k = key then (k, val) :: rest else (k, v) :: setKey rest key val

/-- One iteration of the loop in `update_configuration` (lines 261-264):
`if key in self.coordination_config: self.coordination_config[key] = value`. -/
def updStep (cfg : List (String × CVal)) (p : String × CVal) :
    List (String × CVal) :=
  if (dictLookup cfg p.1).isSome then setKey cfg p.1 p.2 else cfg

/-- Embedding of `update_configuration` (lines 258-273): fold the patch
items over the config dict, then return `{"updated": True, "configuration": cfg}`.
No patch item can raise, so the except branch (returning `updated: False`)
is dead and the first component is constantly `true`. -/
def updateConfiguration (cfg : List (String × CVal))
    (patch : List (String × CVal)) : Bool × List (String × CVal) :=
  (true, patch.foldl updStep cfg)

/-- The initial `coordination_config` dict (lines 27-32). -/
def configDict : List (String × CVal) :=
  [("monitoring_interval", .vi 30), ("alert_threshold", .vq (mkRat 7 10)),
   ("auto_response", .vb true), ("max_alerts_per_hour", .vi 10)]


/-- The end-to-end scenario finding of the spec's testable property: one
detector reports kind `threat_x` with confidence 0.95. -/
def threatFinding : AlertRec :=
  { id := some "t1", atype := some "threat_x"
    confidence := some (mkRat 19 20), timestamp := 0 }

/-- A detector whose monitoring scan succeeds and whose `get_alerts`
returns exactly `threatFinding`. -/
def threatSystem : DefSystem :=
  { name := "threat_analyzer", scan := some (.ok "ok")
    getAlerts := some (.ok [threatFinding]) }

/-- The coordinator state whose store holds exactly the admitted
`threat_x` alert (as stamped at collection time). -/
def threatState : CoordState :=
  { alerts := [{ threatFinding with
                 system := some "threat_analyzer", coordinatedAt := some 0 }] }

/-- C1: in the end-to-end cycle the `threat_x` finding is admitted as the
single alert of the store and the executor builds exactly the
`block_access` and `log_incident` records — but the stored alert's
`status` is never set to `"responded"` and its `responses` list stays
empty: `_execute_response_action` constructs the outcome record and drops
it, and no line of `defense_coordinator.py` writes either field.  This
refutes the claim's `status`/`responses` part while confirming admission
and action selection. -/
theorem c1_end_to_end_code_bug :
    (runCycle 0 [threatSystem] {}).state.alerts = threatState.alerts ∧
    (runCycle 0 [threatSystem] {}).executed.map ResponseRecord.action =
      ["block_access", "log_incident"] ∧
    (runCycle 0 [threatSystem] {}).state.alerts.map AlertRec.status = [none] ∧
    (runCycle 0 [threatSystem] {}).state.alerts.map AlertRec.responses = [[]] := by
  decide

/-- C5: `manual_response` on an existing id returns the success dict and
on an unknown id returns the not-found dict without mutating any state —
but the success path also leaves the whole coordinator state (and hence
the alert's `responses` list) unchanged, because the executor discards the
outcome record it builds. -/
theorem c5_manual_response_code_bug :
    (manualResponse 100 threatState "t1" "block_access").1 = threatState ∧
    (manualResponse 100 threatState "t1" "block_access").2 =
      ManualResult.executed "t1" "block_access" 100 ∧
    (manualResponse 100 threatState "zz" "block_access").1 = threatState ∧
    (manualResponse 100 threatState "zz" "block_access").2 =
      ManualResult.notFound ∧
    threatState.alerts.map AlertRec.responses = [[]] := by
  decide

/-- First of two same-kind candidates, 4 minutes before the second. -/
def dupFirst : AlertRec :=
  { atype := some "threat_x", confidence := some (mkRat 19 20), timestamp := 0 }

/-- Second of two same-kind candidates, 4 minutes after the first. -/
def dupSecond : AlertRec :=
  { atype := some "threat_x", confidence := some (mkRat 19 20), timestamp := 240 }

/-- C2 counterexample: two candidates of identical kind whose timestamps
are 4 minutes apart and which arrive in the SAME batch are both admitted
(store empty, rate limit not hit): the dedup window is the pre-batch store
slice, so batch members are never compared against each other, refuting
the claim's "only the first is admitted" for the same-batch arrangement. -/
theorem c2_same_batch_counterexample :
    dupFirst.atype = dupSecond.atype ∧
    dupSecond.timestamp - dupFirst.timestamp = 240 ∧
    filterAlerts defaultConfig 300 [] [dupFirst, dupSecond] =
      [dupFirst, dupSecond] := by
  decide

/-- When the rate limit is not hit, `_filter_alerts` is exactly the dedup
filter against the last 10 of the trailing-hour slice. -/
lemma filterAlerts_of_lt (cfg : Config) (now : ℤ) (store candidates : List AlertRec)
    (h : (recentAlerts now store).length < cfg.maxAlertsPerHour) :
    filterAlerts cfg now store candidates =
      candidates.filter (fun c => ! isDupB (lastN 10 (recentAlerts now store)) c) := by
  simp only [filterAlerts]
  rw [if_neg (by omega)]

/-- C2 (amended): dedup acts only across cycles.  Against a store already
holding the first alert (inside the trailing hour, rate limit not hit), a
same-kind candidate 4 minutes later is dropped and one 6 minutes later is
admitted; but any two candidates of one batch evaluated against an empty
store are both admitted, whatever their kinds and timestamps. -/
theorem c2_dedup_window_amended (cfg : Config) (now : ℤ)
    (a1 c4 c6 b1 b2 : AlertRec)
    (hmax : 1 < cfg.maxAlertsPerHour)
    (hrec : a1.timestamp > now - 3600)
    (hk4 : c4.atype = a1.atype) (hk6 : c6.atype = a1.atype)
    (h4 : c4.timestamp - a1.timestamp = 240)
    (h6 : c6.timestamp - a1.timestamp = 360) :
    filterAlerts cfg now [a1] [c4] = [] ∧
    filterAlerts cfg now [a1] [c6] = [c6] ∧
    filterAlerts cfg now [] [b1, b2] = [b1, b2] := by
  have hra : recentAlerts now [a1] = [a1] := by
    simp [recentAlerts, hrec]
  have hre : recentAlerts now ([] : List AlertRec) = [] := by
    simp [recentAlerts]
  refine ⟨?_, ?_, ?_⟩
  · rw [filterAlerts_of_lt _ _ _ _ (by rw [hra]; simp; omega), hra]
    simp [lastN, isDupB, hk4, h4]
  · rw [filterAlerts_of_lt _ _ _ _ (by rw [hra]; simp; omega), hra]
    simp [lastN, isDupB, hk6, h6]
  · rw [filterAlerts_of_lt _ _ _ _ (by rw [hre]; simp; omega), hre]
    simp [lastN, isDupB]

/-- An already-admitted `threat_x` alert sitting in the store. -/
def storedThreat : AlertRec :=
  { atype := some "threat_x", confidence := some (mkRat 19 20), timestamp := 700 }

/-- A same-kind candidate 4 minutes after `storedThreat`. -/
def candPlus4 : AlertRec :=
  { atype := some "threat_x", confidence := some (mkRat 19 20), timestamp := 940 }

/-- A same-kind candidate 6 minutes after `storedThreat`. -/
def candPlus6 : AlertRec :=
  { atype := some "threat_x", confidence := some (mkRat 19 20), timestamp := 1060 }

theorem c2_dedup_window_amended_witness :
    filterAlerts defaultConfig 1000 [storedThreat] [candPlus4] = [] ∧
    filterAlerts defaultConfig 1000 [storedThreat] [candPlus6] = [candPlus6] ∧
    filterAlerts defaultConfig 1000 [] [dupFirst, dupSecond] = [dupFirst, dupSecond] :=
  c2_dedup_window_amended defaultConfig 1000 storedThreat candPlus4 candPlus6
    dupFirst dupSecond (by decide) (by decide) (by decide) (by decide)
    (by decide) (by decide)

/-- C3: whenever the trailing-hour slice of the store already counts at
least `max_alerts_per_hour` alerts, `_filter_alerts` returns the empty
list, whatever the batch contains. -/
theorem c3_rate_limit_cutoff (cfg : Config) (now : ℤ)
    (store candidates : List AlertRec)
    (h : (recentAlerts now store).length ≥ cfg.maxAlertsPerHour) :
    filterAlerts cfg now store candidates = [] := by
  simp only [filterAlerts]
  rw [if_pos h]

/-- Ten alerts already admitted at time 0 (all inside the trailing hour). -/
def fullStore : List AlertRec := List.replicate 10 { timestamp := 0 }

theorem c3_rate_limit_cutoff_witness :
    (recentAlerts 0 fullStore).length ≥ defaultConfig.maxAlertsPerHour ∧
    filterAlerts defaultConfig 0 fullStore [threatFinding] = [] :=
  ⟨by decide, c3_rate_limit_cutoff defaultConfig 0 fullStore [threatFinding] (by decide)⟩

/-- An alert admitted at time 0 whose detector-reported timestamp lies 25
hours in the future of its admission. -/
def futureAlert : AlertRec :=
  { id := some "f1", atype := some "threat_x", confidence := some (mkRat 19 20)
    timestamp := 90000, coordinatedAt := some 0 }

/-- C8 counterexample: pruning keys on the finding's `"timestamp"`, not on
the admission-time `"coordinated_at"`.  An alert admitted at time 0 with a
future finding timestamp survives the prune at time 87000, although its
admission-side timestamp is then more than 24 hours in the past. -/
theorem c8_prune_key_counterexample :
    futureAlert ∈ pruneAlerts 87000 [futureAlert] ∧
    87000 - futureAlert.coordinatedAt.getD 0 > 86400 := by
  decide

/-- C8 (amended): after every prune, every alert remaining in the store
has its finding timestamp strictly within 24 hours of `now`; an entry
sitting exactly at the 24-hour boundary is pruned (the one prune site
uses a strict comparison, so the exclusive boundary rule is consistent). -/
theorem c8_retention_pruning (now : ℤ) (store : List AlertRec) (a : AlertRec) :
    (a ∈ pruneAlerts now store → now - a.timestamp < 86400) ∧
    (a.timestamp = now - 86400 → a ∉ pruneAlerts now store) := by
  unfold pruneAlerts
  constructor
  · intro h
    simp only [List.mem_filter, decide_eq_true_eq] at h
    omega
  · intro hb hmem
    simp only [List.mem_filter, decide_eq_true_eq] at hmem
    omega

/-- An alert 100 seconds old at the retention check. -/
def freshAlert : AlertRec := { timestamp := -100 }

/-- An alert exactly at the 24-hour retention boundary. -/
def boundaryAlert : AlertRec := { timestamp := -86400 }

theorem c8_retention_pruning_witness :
    (0 : ℤ) - freshAlert.timestamp < 86400 ∧
    boundaryAlert ∉ pruneAlerts 0 [freshAlert, boundaryAlert] :=
  ⟨(c8_retention_pruning 0 [freshAlert, boundaryAlert] freshAlert).1 (by decide),
   (c8_retention_pruning 0 [freshAlert, boundaryAlert] boundaryAlert).2 (by decide)⟩

/-- C10: the rate limit counts only alerts already in the store before the
batch is evaluated.  Whenever the trailing-hour count is below
`max_alerts_per_hour`, the filter admits every non-duplicate candidate of
the batch — all of them when the store is empty — with no cap on the
batch's size. -/
theorem c10_rate_limit_prebatch (cfg : Config) (now : ℤ)
    (store candidates : List AlertRec)
    (h : (recentAlerts now store).length < cfg.maxAlertsPerHour) :
    filterAlerts cfg now store candidates =
      candidates.filter (fun c => ! isDupB (lastN 10 (recentAlerts now store)) c) ∧
    (store = [] → filterAlerts cfg now store candidates = candidates) := by
  refine ⟨filterAlerts_of_lt cfg now store candidates h, ?_⟩
  intro hs
  subst hs
  rw [filterAlerts_of_lt cfg now [] candidates h]
  simp [recentAlerts, lastN, isDupB]

/-- Twelve distinct candidates in one batch: more than
`max_alerts_per_hour` of the default configuration. -/
def bigBatch : List AlertRec :=
  (List.range 12).map (fun i =>
    { atype := some "threat_x", confidence := some (mkRat 19 20)
      timestamp := (i : ℤ) })

theorem c10_rate_limit_prebatch_witness :
    (recentAlerts 0 ([] : List AlertRec)).length < defaultConfig.maxAlertsPerHour ∧
    filterAlerts defaultConfig 0 [] bigBatch = bigBatch ∧
    bigBatch.length = 12 :=
  ⟨by decide,
   (c10_rate_limit_prebatch defaultConfig 0 [] bigBatch (by decide)).2 rfl,
   by decide⟩

/-- A high-confidence alert whose kind contains both `anomaly` and
`threat`. -/
def mixedKindAlert : AlertRec :=
  { atype := some "anomaly_threat", confidence := some (mkRat 19 20)
    timestamp := 0 }

/-- C4 counterexample: a kind containing several keywords does NOT receive
the actions of each matching row.  For `anomaly_threat` at confidence 0.95
the `elif` chain stops at the anomaly row, and `block_access` is absent. -/
theorem c4_first_match_counterexample :
    strContains "anomaly" (lowerChars (mixedKindAlert.atype.getD "")) = true ∧
    strContains "threat" (lowerChars (mixedKindAlert.atype.getD "")) = true ∧
    mixedKindAlert.confidence.getD 0 > mkRat 9 10 ∧
    determineResponseActions mixedKindAlert =
      ["isolate_resource", "increase_monitoring"] ∧
    "block_access" ∉ determineResponseActions mixedKindAlert := by
  decide

/-- C4 (amended): the planner is a pure function of `confidence` and
`kind`; with confidence above 0.9 the three substring rows are checked
first-match in the order anomaly, threat, performance (substring test on
the lowercased kind), a kind matching several keywords receiving only the
first matching row's actions; with confidence in (0.7, 0.9] any kind
yields `increase_monitoring` only; with confidence at or below 0.7 no
automatic action is returned. -/
theorem c4_planner_rule_table (a : AlertRec) :
    (a.confidence.getD 0 > mkRat 9 10 →
      strContains "anomaly" (lowerChars (a.atype.getD "")) = true →
      determineResponseActions a = ["isolate_resource", "increase_monitoring"]) ∧
    (a.confidence.getD 0 > mkRat 9 10 →
      strContains "anomaly" (lowerChars (a.atype.getD "")) = false →
      strContains "threat" (lowerChars (a.atype.getD "")) = true →
      determineResponseActions a = ["block_access", "log_incident"]) ∧
    (a.confidence.getD 0 > mkRat 9 10 →
      strContains "anomaly" (lowerChars (a.atype.getD "")) = false →
      strContains "threat" (lowerChars (a.atype.getD "")) = false →
      strContains "performance" (lowerChars (a.atype.getD "")) = true →
      determineResponseActions a = ["scale_resources", "trigger_upgrade"]) ∧
    (¬ a.confidence.getD 0 > mkRat 9 10 → a.confidence.getD 0 > mkRat 7 10 →
      determineResponseActions a = ["increase_monitoring"]) ∧
    (a.confidence.getD 0 ≤ mkRat 7 10 → determineResponseActions a = []) ∧
    (∀ b : AlertRec, b.atype = a.atype → b.confidence = a.confidence →
      determineResponseActions b = determineResponseActions a) := by
  refine ⟨?_, ?_, ?_, ?_, ?_, ?_⟩
  · intro hc ha
    simp [determineResponseActions, hc, ha]
  · intro hc ha ht
    simp [determineResponseActions, hc, ha, ht]
  · intro hc ha ht hp
    simp [determineResponseActions, hc, ha, ht, hp]
  · intro hc h7
    simp [determineResponseActions, hc, h7]
  · intro h7
    have h9 : ¬ a.confidence.getD 0 > mkRat 9 10 :=
      not_lt.mpr (le_trans h7 (by decide))
    have h7' : ¬ a.confidence.getD 0 > mkRat 7 10 := not_lt.mpr h7
    simp [determineResponseActions, h9, h7']
  · intro b hb hcof
    simp [determineResponseActions, hb, hcof]

/-- A high-confidence alert with an uppercase anomaly kind. -/
def anomAlert : AlertRec :=
  { atype := some "ANOMALY_scan", confidence := some (mkRat 19 20), timestamp := 0 }

/-- A high-confidence alert with a threat kind. -/
def pureThreatAlert : AlertRec :=
  { atype := some "Threat_X", confidence := some (mkRat 19 20), timestamp := 0 }

/-- A high-confidence alert with a performance kind. -/
def perfAlert : AlertRec :=
  { atype := some "performance_drop", confidence := some (mkRat 19 20), timestamp := 0 }

/-- A medium-confidence alert (0.8). -/
def medAlert : AlertRec :=
  { atype := some "threat_x", confidence := some (mkRat 4 5), timestamp := 0 }

/-- An alert at confidence exactly 0.7. -/
def lowAlert : AlertRec :=
  { atype := some "threat_x", confidence := some (mkRat 7 10), timestamp := 0 }

theorem c4_planner_rule_table_witness :
    determineResponseActions anomAlert = ["isolate_resource", "increase_monitoring"] ∧
    determineResponseActions pureThreatAlert = ["block_access", "log_incident"] ∧
    determineResponseActions perfAlert = ["scale_resources", "trigger_upgrade"] ∧
    determineResponseActions medAlert = ["increase_monitoring"] ∧
    determineResponseActions lowAlert = [] ∧
    determineResponseActions { medAlert with timestamp := 99 } =
      determineResponseActions medAlert := by
  refine ⟨?_, ?_, ?_, ?_, ?_, ?_⟩
  · exact (c4_planner_rule_table anomAlert).1 (by decide) (by decide)
  · exact (c4_planner_rule_table pureThreatAlert).2.1 (by decide) (by decide) (by decide)
  · exact (c4_planner_rule_table perfAlert).2.2.1 (by decide) (by decide) (by decide) (by decide)
  · exact (c4_planner_rule_table medAlert).2.2.2.1 (by decide) (by decide)
  · exact (c4_planner_rule_table lowAlert).2.2.2.2.1 (by decide)
  · exact (c4_planner_rule_table medAlert).2.2.2.2.2 _ rfl rfl

/-- C6: with a detector whose scan and `get_alerts` both raise, sitting
anywhere in the system list, the cycle's results dict still records an
error entry for it, the entries of every other detector are exactly those
it would record anyway, and the candidate batch handed to the admission
filter is exactly the concatenation of the other detectors'
above-threshold findings — the failing detector contributes zero findings
and aborts nothing. -/
theorem c6_failure_isolation (now : ℤ) (st : CoordState)
    (pre post : List DefSystem) (s : DefSystem) (e1 e2 : String)
    (hscan : s.scan = some (.error e1))
    (hget : s.getAlerts = some (.error e2)) :
    runMonitoringResults (pre ++ s :: post) =
      runMonitoringResults pre ++
        (s.name, SysResult.err e1) :: runMonitoringResults post ∧
    collectNewAlerts st.config now ((pre ++ s :: post).map sysAlertsView) =
      collectNewAlerts st.config now (pre.map sysAlertsView) ++
        collectNewAlerts st.config now (post.map sysAlertsView) ∧
    (runCycle now (pre ++ s :: post) st).admitted =
      filterAlerts st.config now st.alerts
        (collectNewAlerts st.config now (pre.map sysAlertsView) ++
          collectNewAlerts st.config now (post.map sysAlertsView)) := by
  have h2 : collectNewAlerts st.config now ((pre ++ s :: post).map sysAlertsView) =
      collectNewAlerts st.config now (pre.map sysAlertsView) ++
        collectNewAlerts st.config now (post.map sysAlertsView) := by
    simp [collectNewAlerts, sysAlertsView, hget]
  refine ⟨?_, h2, ?_⟩
  · simp [runMonitoringResults, hscan, toSysResult]
  · have h3 : (runCycle now (pre ++ s :: post) st).admitted =
        filterAlerts st.config now st.alerts
          (collectNewAlerts st.config now ((pre ++ s :: post).map sysAlertsView)) := rfl
    rw [h3, h2]

/-- A detector that succeeds and reports one high-confidence anomaly. -/
def okSystem : DefSystem :=
  { name := "anomaly_detector", scan := some (.ok "fine")
    getAlerts := some (.ok [anomAlert]) }

/-- A detector whose scan and `get_alerts` both raise. -/
def failSystem : DefSystem :=
  { name := "neural_monitor", scan := some (.error "boom")
    getAlerts := some (.error "boom") }

/-- A detector that succeeds and reports nothing. -/
def quietSystem : DefSystem :=
  { name := "threat_analyzer", scan := some (.ok "ok")
    getAlerts := some (.ok []) }

theorem c6_failure_isolation_witness :
    runMonitoringResults ([okSystem] ++ failSystem :: [quietSystem]) =
      runMonitoringResults [okSystem] ++
        (failSystem.name, SysResult.err "boom") :: runMonitoringResults [quietSystem] ∧
    collectNewAlerts ({} : CoordState).config 0
        (([okSystem] ++ failSystem :: [quietSystem]).map sysAlertsView) =
      collectNewAlerts ({} : CoordState).config 0 ([okSystem].map sysAlertsView) ++
        collectNewAlerts ({} : CoordState).config 0 ([quietSystem].map sysAlertsView) ∧
    (runCycle 0 ([okSystem] ++ failSystem :: [quietSystem]) {}).admitted =
      filterAlerts ({} : CoordState).config 0 ({} : CoordState).alerts
        (collectNewAlerts ({} : CoordState).config 0 ([okSystem].map sysAlertsView) ++
          collectNewAlerts ({} : CoordState).config 0 ([quietSystem].map sysAlertsView)) :=
  c6_failure_isolation 0 {} [okSystem] [quietSystem] failSystem "boom" "boom" rfl rfl

/-- The length of the last-`n` slice is at most `n`. -/
lemma lastN_length_le (n : ℕ) (l : List α) : (lastN n l).length ≤ n := by
  unfold lastN
  rw [List.length_drop]
  omega

/-- Taking the last `n` of a list whose front has already been cut to its
last `n` is the same as taking the last `n` of the original front. -/
lemma lastN_append_lastN (n : ℕ) (x y : List α) :
    lastN n (lastN n x ++ y) = lastN n (x ++ y) := by
  unfold lastN
  have hx : x.drop (x.length - n) ++ y = (x ++ y).drop (x.length - n) := by
    rw [List.drop_append_eq_append_drop,
        Nat.sub_eq_zero_of_le (Nat.sub_le _ _), List.drop_zero]
  rw [hx, List.length_drop, List.drop_drop]
  congr 1
  rw [List.length_append]
  omega

/-- Appending one record with the cap is taking the last 100 of the
appended list. -/
lemma appendHistory_eq_lastN (hist : List CycleRecord) (c : CycleRecord) :
    appendHistory hist c = lastN 100 (hist ++ [c]) := by
  unfold appendHistory
  by_cases h : (hist ++ [c]).length > 100
  · rw [if_pos h]
  · rw [if_neg h]
    unfold lastN
    rw [Nat.sub_eq_zero_of_le (by omega), List.drop_zero]

/-- Folding cycles over a history within the cap keeps exactly the last
100 records of everything ever appended. -/
lemma foldl_appendHistory (rs : List CycleRecord) :
    ∀ hist : List CycleRecord, hist.length ≤ 100 →
      rs.foldl appendHistory hist = lastN 100 (hist ++ rs) := by
  induction rs with
  | nil =>
      intro hist h
      unfold lastN
      rw [List.append_nil, Nat.sub_eq_zero_of_le h, List.drop_zero,
          List.foldl_nil]
  | cons c rs ih =>
      intro hist h
      rw [List.foldl_cons, appendHistory_eq_lastN,
          ih _ (lastN_length_le 100 (hist ++ [c])), lastN_append_lastN]
      simp

/-- C7: after more than 100 appends the capped history has length exactly
100 and consists precisely of the 100 most recent cycle records in
execution order (the oldest `length - 100` records having been evicted). -/
theorem c7_history_bound (rs : List CycleRecord) (h : rs.length > 100) :
    rs.foldl appendHistory [] = rs.drop (rs.length - 100) ∧
    (rs.foldl appendHistory []).length = 100 := by
  have hf : rs.foldl appendHistory [] = lastN 100 rs := by
    have := foldl_appendHistory rs [] (by simp)
    simpa using this
  constructor
  · rw [hf]; rfl
  · rw [hf]
    unfold lastN
    rw [List.length_drop]
    omega

theorem c7_history_bound_witness :
    (List.replicate 101 ({} : CycleRecord)).length > 100 ∧
    ((List.replicate 101 ({} : CycleRecord)).foldl appendHistory [] =
      (List.replicate 101 ({} : CycleRecord)).drop
        ((List.replicate 101 ({} : CycleRecord)).length - 100) ∧
     ((List.replicate 101 ({} : CycleRecord)).foldl appendHistory []).length = 100) :=
  ⟨by simp, c7_history_bound (List.replicate 101 {}) (by simp)⟩

/-- Replacing a key's value never changes the key list. -/
lemma setKey_fst (cfg : List (String × CVal)) (key : String) (val : CVal) :
    (setKey cfg key val).map Prod.fst = cfg.map Prod.fst := by
  induction cfg with
  | nil => rfl
  | cons p rest ih =>
      obtain ⟨k, v⟩ := p
      by_cases h : k = key <;> simp [setKey, h, ih]

/-- One update step never changes the key list. -/
lemma updStep_fst (cfg : List (String × CVal)) (p : String × CVal) :
    (updStep cfg p).map Prod.fst = cfg.map Prod.fst := by
  unfold updStep
  by_cases h : (dictLookup cfg p.1).isSome <;> simp [h, setKey_fst]

/-- Folding a whole patch never changes the key list. -/
lemma foldl_updStep_fst (patch : List (String × CVal)) :
    ∀ cfg : List (String × CVal),
      (patch.foldl updStep cfg).map Prod.fst = cfg.map Prod.fst := by
  induction patch with
  | nil => intro cfg; rfl
  | cons p ps ih =>
      intro cfg
      rw [List.foldl_cons, ih, updStep_fst]

/-- Whether a lookup succeeds depends only on the key list. -/
lemma dictLookup_isSome_of_fst_eq :
    ∀ {cfg cfg' : List (String × CVal)},
      cfg.map Prod.fst = cfg'.map Prod.fst →
      ∀ k, (dictLookup cfg k).isSome = (dictLookup cfg' k).isSome := by
  intro cfg
  induction cfg with
  | nil =>
      intro cfg' h k
      cases cfg' with
      | nil => rfl
      | cons q r => simp at h
  | cons p rest ih =>
      intro cfg' h k
      cases cfg' with
      | nil => simp at h
      | cons q r =>
          obtain ⟨k1, v1⟩ := p
          obtain ⟨k2, v2⟩ := q
          simp only [List.map_cons, List.cons.injEq] at h
          obtain ⟨h1, h2⟩ := h
          subst h1
          by_cases hk : k1 = k <;> simp [dictLookup, hk, ih h2]

/-- Applying a patch is the same as applying only its recognized entries:
the unrecognized ones are silently skipped. -/
lemma foldl_updStep_filter (patch : List (String × CVal)) :
    ∀ cfg : List (String × CVal),
      patch.foldl updStep cfg =
        (patch.filter (fun p => (dictLookup cfg p.1).isSome)).foldl updStep cfg := by
  induction patch with
  | nil => intro cfg; rfl
  | cons p ps ih =>
      intro cfg
      rw [List.foldl_cons]
      by_cases h : (dictLookup cfg p.1).isSome
      · rw [List.filter_cons_of_pos (by simpa using h), List.foldl_cons, ih]
        congr 1
        exact List.filter_congr (fun q _ => by
          rw [dictLookup_isSome_of_fst_eq (updStep_fst cfg p) q.1])
      · have hid : updStep cfg p = cfg := by
          unfold updStep
          rw [if_neg h]
        rw [List.filter_cons_of_neg (by simpa using h), hid, ih]

/-- Replacing one key leaves every other key's value alone. -/
lemma dictLookup_setKey_ne (cfg : List (String × CVal)) (key : String)
    (val : CVal) (k : String) (h : k ≠ key) :
    dictLookup (setKey cfg key val) k = dictLookup cfg k := by
  induction cfg with
  | nil => rfl
  | cons p rest ih =>
      obtain ⟨k1, v1⟩ := p
      by_cases h1 : k1 = key
      · subst h1
        have hne : ¬ k1 = k := fun hh => h hh.symm
        simp [setKey, dictLookup, hne]
      · simp [setKey, dictLookup, h1, ih]

/-- One update step leaves every key other than the patched one alone. -/
lemma dictLookup_updStep_ne (cfg : List (String × CVal)) (p : String × CVal)
    (k : String) (h : k ≠ p.1) :
    dictLookup (updStep cfg p) k = dictLookup cfg k := by
  unfold updStep
  by_cases hs : (dictLookup cfg p.1).isSome
  · rw [if_pos hs, dictLookup_setKey_ne _ _ _ _ h]
  · rw [if_neg hs]

/-- A key named by no patch entry keeps its value through the whole fold. -/
lemma foldl_updStep_not_mem (patch : List (String × CVal)) :
    ∀ cfg : List (String × CVal), ∀ k : String, k ∉ patch.map Prod.fst →
      dictLookup (patch.foldl updStep cfg) k = dictLookup cfg k := by
  induction patch with
  | nil => intro cfg k _; rfl
  | cons p ps ih =>
      intro cfg k hk
      simp only [List.map_cons, List.mem_cons, not_or] at hk
      rw [List.foldl_cons, ih _ _ hk.2, dictLookup_updStep_ne _ _ _ hk.1]

/-- Replacing a present key's value makes the lookup return that value. -/
lemma dictLookup_setKey_self (cfg : List (String × CVal)) (k : String)
    (v : CVal) (h : (dictLookup cfg k).isSome = true) :
    dictLookup (setKey cfg k v) k = some v := by
  induction cfg with
  | nil => simp [dictLookup] at h
  | cons p rest ih =>
      obtain ⟨k1, v1⟩ := p
      by_cases h1 : k1 = k
      · simp [setKey, dictLookup, h1]
      · simp only [dictLookup, if_neg h1] at h
        simp [setKey, dictLookup, h1, ih h]

/-- An update step on a present key makes the lookup return the new
value. -/
lemma dictLookup_updStep_self (cfg : List (String × CVal)) (k : String)
    (v : CVal) (h : (dictLookup cfg k).isSome = true) :
    dictLookup (updStep cfg (k, v)) k = some v := by
  simp only [updStep, h]
  rw [if_pos trivial]
  exact dictLookup_setKey_self cfg k v h

/-- C9: `update_configuration` always reports success; applying a patch is
the same as applying only its entries whose keys are recognized (present
in `coordination_config`), the unrecognized ones being silently ignored;
the set of configuration keys never changes; every key not named by the
patch keeps its value; and a recognized key set by the patch's final entry
ends up with that entry's value. -/
theorem c9_update_configuration (patch : List (String × CVal)) :
    (updateConfiguration configDict patch).1 = true ∧
    (updateConfiguration configDict patch).2 =
      (updateConfiguration configDict
        (patch.filter (fun p => (dictLookup configDict p.1).isSome))).2 ∧
    (updateConfiguration configDict patch).2.map Prod.fst =
      configDict.map Prod.fst ∧
    (∀ k, k ∉ patch.map Prod.fst →
      dictLookup (updateConfiguration configDict patch).2 k =
        dictLookup configDict k) ∧
    (∀ k v, (dictLookup configDict k).isSome = true →
      dictLookup (updateConfiguration configDict (patch ++ [(k, v)])).2 k =
        some v) := by
  refine ⟨rfl, foldl_updStep_filter patch configDict,
    foldl_updStep_fst patch configDict,
    fun k hk => foldl_updStep_not_mem patch configDict k hk, ?_⟩
  intro k v hv
  show dictLookup ((patch ++ [(k, v)]).foldl updStep configDict) k = some v
  rw [List.foldl_append, List.foldl_cons, List.foldl_nil]
  have hsome : (dictLookup (patch.foldl updStep configDict) k).isSome = true := by
    rw [dictLookup_isSome_of_fst_eq (foldl_updStep_fst patch configDict) k]
    exact hv
  exact dictLookup_updStep_self _ _ _ hsome

/-- A patch mixing one recognized and one unrecognized key. -/
def patchSample : List (String × CVal) :=
  [("alert_threshold", .vq (mkRat 1 2)), ("bogus_key", .vb false)]

theorem c9_update_configuration_witness :
    (updateConfiguration configDict patchSample).1 = true ∧
    (updateConfiguration configDict patchSample).2 =
      (updateConfiguration configDict
        (patchSample.filter (fun p => (dictLookup configDict p.1).isSome))).2 ∧
    dictLookup (updateConfiguration configDict patchSample).2
      "monitoring_interval" = dictLookup configDict "monitoring_interval" ∧
    dictLookup (updateConfiguration configDict
        (patchSample ++ [("max_alerts_per_hour", .vi 5)])).2
      "max_alerts_per_hour" = some (.vi 5) :=
  ⟨(c9_update_configuration patchSample).1,
   (c9_update_configuration patchSample).2.1,
   (c9_update_configuration patchSample).2.2.2.1 "monitoring_interval" (by decide),
   (c9_update_configuration patchSample).2.2.2.2 "max_alerts_per_hour"
     (.vi 5) (by decide)⟩
